import Mathlib

/-!
Shallow embedding of the panel-reader repository core: the upload
validation/ingestion pipeline and the paginated listing endpoint of
backend/src/app.ts, and the client Gallery fetch/retry/cancellation state
machine of the Gallery component.  Definitions are translated from the
source; theorems settle the specified properties.
-/

/-! ## Character and string helpers used by the source -/

/-- Model of the JavaScript String.prototype.toLowerCase case mapping on a
single character, restricted to ASCII (the only characters produced by the
filename code under scrutiny): each uppercase ASCII letter maps to the
corresponding lowercase letter and every other character is unchanged. -/
def jsToLowerChar (c : Char) : Char :=
  match c with
  | 'A' => 'a' | 'B' => 'b' | 'C' => 'c' | 'D' => 'd' | 'E' => 'e'
  | 'F' => 'f' | 'G' => 'g' | 'H' => 'h' | 'I' => 'i' | 'J' => 'j'
  | 'K' => 'k' | 'L' => 'l' | 'M' => 'm' | 'N' => 'n' | 'O' => 'o'
  | 'P' => 'p' | 'Q' => 'q' | 'R' => 'r' | 'S' => 's' | 'T' => 't'
  | 'U' => 'u' | 'V' => 'v' | 'W' => 'w' | 'X' => 'x' | 'Y' => 'y'
  | 'Z' => 'z'
  | other => other

/-- Model of the JavaScript String.prototype.toLowerCase call applied by the
filename callback to the file extension. -/
def jsToLower (s : String) : String :=
  String.mk (s.toList.map jsToLowerChar)

/-- Model of Node path.extname (POSIX rules, the platform the backend runs
on): trailing slashes are trimmed, the basename is the part after the last
slash, and the extension is the substring from the last dot of the basename
to its end -- except that a basename with no dot, a basename whose only dot
is its leading character (a dotfile), and the basename dot-dot all yield the
empty extension.  The computation below works on the reversed character
list: rb is the reversed basename and ra is the reversed run of characters
after the last dot. -/
def extname (s : String) : String :=
  let trimmed := s.toList.reverse.dropWhile (fun c => c == '/')
  let rb := trimmed.takeWhile (fun c => c != '/')
  let ra := rb.takeWhile (fun c => c != '.')
  if rb = ['.', '.'] then ""
  else if ra.length = rb.length then ""
  else if rb = ra ++ ['.'] then ""
  else String.mk ('.' :: ra.reverse)

/-- Decimal digit characters of a positive natural number, with explicit
fuel (the number itself is always enough fuel); models the JavaScript
number-to-string conversion inside the template literal of the filename
callback. -/
def natToDecimalAux : Nat → Nat → List Char
  | 0, _ => []
  | _ + 1, 0 => []
  | fuel + 1, n => natToDecimalAux fuel (n / 10) ++ [Nat.digitChar (n % 10)]

/-- Decimal string of a natural number, modelling JavaScript template
literal interpolation of a nonnegative integer. -/
def natToDecimalString (n : Nat) : String :=
  if n = 0 then "0" else String.mk (natToDecimalAux n n)

/-- Model of the JavaScript parseInt(s, 10) call used by the listing
handler: leading whitespace is skipped, an optional single sign is read,
then the longest run of decimal digits; trailing characters are ignored;
none models the NaN result when no digit is found. -/
def parseIntBase10 (s : String) : Option Int :=
  let cs := s.toList.dropWhile Char.isWhitespace
  let signDigits : Int × List Char :=
    match cs with
    | '-' :: t => (-1, t)
    | '+' :: t => (1, t)
    | t => (1, t)
  let ds := signDigits.2.takeWhile Char.isDigit
  if ds.isEmpty then none
  else some (signDigits.1 * ((ds.foldl (fun a c => 10 * a + (c.toNat - 48)) 0 : Nat) : Int))

/-! ## Backend data model (prisma rows and server state) -/

/-- One row of the users table touched by the demo-user upsert. -/
structure UserRec where
  id : Nat
  email : String
  username : String
deriving DecidableEq, Repr

/-- One row of the images table (the StoredImage record): field for field
the data object passed to the create call of the upload handler. -/
structure ImageRecord where
  id : Nat
  filename : String
  originalName : String
  mimeType : String
  size : Nat
  width : Option Int
  height : Option Int
  uploadedAt : Nat
  userId : Nat
deriving DecidableEq, Repr

/-- The externally visible mutable state the two endpoints touch: the flat
uploads directory (list of storage names present) and the metadata store
(users and images tables).  nextId models the id generator of the store and
clock the row-creation timestamp source. -/
structure ServerState where
  files : List String
  users : List UserRec
  records : List ImageRecord
  nextId : Nat
  clock : Nat
deriving DecidableEq, Repr

/-- The JSON item shape produced by both endpoints for one image. -/
structure ImageDescriptor where
  id : Nat
  filename : String
  originalName : String
  mimeType : String
  size : Nat
  width : Option Int
  height : Option Int
  url : String
  uploadedAt : Nat
deriving DecidableEq, Repr

/-- A response body: either the error JSON shape with an error string, or
the image descriptor JSON of a successful upload. -/
inductive RespBody where
  | errMsg (msg : String)
  | imageJson (d : ImageDescriptor)
deriving DecidableEq, Repr

/-- An HTTP response: status code plus JSON body. -/
structure Response where
  status : Nat
  body : RespBody
deriving DecidableEq, Repr

/-! ## Upload pipeline -/

/-- The configured size ceiling (MAX_FILE_SIZE default, 10 MiB). -/
def MAX_FILE_SIZE : Nat := 10 * 1024 * 1024

/-- The mime allow-list of the fileFilter. -/
def allowedMimes : List String := ["image/jpeg", "image/png"]

/-- The fileFilter predicate: allowed.includes(file.mimetype). -/
def fileFilterAllows (mime : String) : Bool := allowedMimes.contains mime

/-- The diskStorage filename callback: Date.now(), a random integer, and
the lowercased extension of the original name. -/
def storageFilename (now rand : Nat) (originalname : String) : String :=
  natToDecimalString now ++ "-" ++ natToDecimalString rand ++ jsToLower (extname originalname)

/-- Outcome of the image-size probe (the sizeOf call on the stored file):
either the decode throws, or it yields a dimensions object whose width and
height fields are optional numbers. -/
inductive DecodeResult where
  | decodeFailed
  | decoded (width height : Option Int)
deriving DecidableEq, Repr

/-- Per-request environment: wall clock and random draw consumed by the
filename callback, the configured public base URL, the decoder outcome for
the uploaded bytes, and whether the metadata-store create call fails (fault
injection for the persistence collaborator). -/
structure UploadEnv where
  now : Nat
  rand : Nat
  publicBase : String
  decode : DecodeResult
  dbCreateFails : Bool
deriving DecidableEq, Repr

/-- An upload request: either the multipart form has no file field, or it
carries one file with a declared original name, mime type and byte size. -/
inductive UploadRequest where
  | noFile
  | withFile (originalName mimeType : String) (size : Nat)
deriving DecidableEq, Repr

/-- What the multer middleware hands on to the rest of the app. -/
inductive MulterOutcome where
  | rejectedByFilter (msg : String)
  | fileTooLarge
  | noFilePresent
  | fileStored (storedName originalName mimeType : String) (size : Nat)
deriving DecidableEq, Repr

/-- Models the multer middleware as configured in app.ts: the fileFilter
runs when the file part is encountered, before any bytes are piped to the
disk storage engine, and an error passed to its callback aborts the request
as a plain Error (multer constructs MulterError values only for its own
limits); a file exceeding limits.fileSize aborts with the MulterError code
LIMIT_FILE_SIZE and the partially written file is removed by the storage
engine; otherwise the bytes are written under the name produced by the
filename callback. -/
def multerStage (env : UploadEnv) (req : UploadRequest) (s : ServerState) :
    MulterOutcome × ServerState :=
  match req with
  | .noFile => (.noFilePresent, s)
  | .withFile orig mime size =>
      if !(fileFilterAllows mime) then
        (.rejectedByFilter "Only JPEG and PNG files are allowed", s)
      else if MAX_FILE_SIZE < size then
        (.fileTooLarge, s)
      else
        let name := storageFilename env.now env.rand orig
        (.fileStored name orig mime size, { s with files := s.files ++ [name] })

/-- An error forwarded to the error-handling middleware chain via next. -/
inductive ForwardedErr where
  | multerLimitFileSize
  | otherMulter (msg : String)
  | plainErr (msg : String)
deriving DecidableEq, Repr

/-- The two error middlewares at the bottom of app.ts: a MulterError with
code LIMIT_FILE_SIZE yields 413, any other MulterError yields 400 with its
message, and every other error falls through to the generic handler which
yields 500 with a fixed message. -/
def errorMiddleware (e : ForwardedErr) : Response :=
  match e with
  | .multerLimitFileSize => ⟨413, .errMsg "File too large. Max 10MB."⟩
  | .otherMulter msg => ⟨400, .errMsg msg⟩
  | .plainErr _ => ⟨500, .errMsg "Something went wrong!"⟩

/-- JavaScript truthiness of the optional numeric width/height fields: an
absent field and the number zero are falsy, every other number is truthy
(the source tests them with a bang). -/
def jsTruthyNum (v : Option Int) : Bool :=
  match v with
  | none => false
  | some n => n != 0

/-- The fs.unlink cleanup call: the named file is removed from the uploads
directory. -/
def removeFile (name : String) (s : ServerState) : ServerState :=
  { s with files := s.files.erase name }

/-- The prisma user.upsert call with the fixed demo email: return the
existing row if present, otherwise create it. -/
def upsertDemoUser (s : ServerState) : UserRec × ServerState :=
  match s.users.find? (fun u => u.email == "demo@example.com") with
  | some u => (u, s)
  | none =>
      let u : UserRec := ⟨s.nextId, "demo@example.com", "demo"⟩
      (u, { s with users := s.users ++ [u], nextId := s.nextId + 1 })

/-- The POST uploads route, end to end: multer stage, then the handler body
(missing-file check, dimension probe with cleanup on failure, demo-user
upsert, metadata create with cleanup-then-rethrow on failure, 201 with the
descriptor on success), with forwarded errors rendered by the error
middlewares. -/
def uploadRoute (env : UploadEnv) (req : UploadRequest) (s : ServerState) :
    Response × ServerState :=
  match multerStage env req s with
  | (.rejectedByFilter msg, s1) => (errorMiddleware (.plainErr msg), s1)
  | (.fileTooLarge, s1) => (errorMiddleware .multerLimitFileSize, s1)
  | (.noFilePresent, s1) => (⟨400, .errMsg "No file uploaded"⟩, s1)
  | (.fileStored name orig mime size, s1) =>
      match env.decode with
      | .decodeFailed => (⟨400, .errMsg "Could not process image"⟩, removeFile name s1)
      | .decoded w h =>
          if !(jsTruthyNum w) || !(jsTruthyNum h) then
            (⟨400, .errMsg "Invalid image file"⟩, removeFile name s1)
          else
            let us := upsertDemoUser s1
            let s2 := us.2
            if env.dbCreateFails then
              (errorMiddleware (.plainErr "metadata create failed"), removeFile name s2)
            else
              let row : ImageRecord :=
                ⟨s2.nextId, name, orig, mime, size, w, h, s2.clock, us.1.id⟩
              let s3 := { s2 with records := s2.records ++ [row], nextId := s2.nextId + 1 }
              let url := env.publicBase ++ "/uploads/" ++ name
              (⟨201, .imageJson ⟨row.id, row.filename, row.originalName, row.mimeType,
                 row.size, row.width, row.height, url, row.uploadedAt⟩⟩, s3)

/-! ## Listing endpoint -/

/-- Effective limit computed by the listing handler: parseInt of the limit
query parameter (with the string default twenty when the parameter is
absent), the JavaScript or-default that replaces a NaN or zero parse by
twenty, then the clamp to the interval from one to one hundred. -/
def effLimit (q : Option String) : Int :=
  let raw : Int :=
    match parseIntBase10 (q.getD "20") with
    | none => 20
    | some v => if v = 0 then 20 else v
  min (max raw 1) 100

/-- Effective offset computed by the listing handler: parseInt of the
offset query parameter (default string zero), the or-default replacing NaN
by zero, then the clamp to nonnegative values. -/
def effOffset (q : Option String) : Int :=
  let raw : Int :=
    match parseIntBase10 (q.getD "0") with
    | none => 0
    | some v => if v = 0 then 0 else v
  max raw 0

/-- The ordering used by the listing query: uploadedAt descending. -/
def uploadedDesc (a b : ImageRecord) : Prop := b.uploadedAt ≤ a.uploadedAt

instance : DecidableRel uploadedDesc :=
  fun a b => inferInstanceAs (Decidable (b.uploadedAt ≤ a.uploadedAt))

instance : IsTotal ImageRecord uploadedDesc :=
  ⟨fun a b => Nat.le_total b.uploadedAt a.uploadedAt⟩

instance : IsTrans ImageRecord uploadedDesc :=
  ⟨fun _ _ _ hab hbc => Nat.le_trans hbc hab⟩

/-- The findMany call with orderBy uploadedAt desc: the stored image rows
in descending creation-timestamp order. -/
def listRecordsSorted (s : ServerState) : List ImageRecord :=
  List.insertionSort uploadedDesc s.records

/-- One listing item as serialized by the handler: the row fields plus the
public URL built from the configured base and the storage name. -/
def toDescriptor (base : String) (r : ImageRecord) : ImageDescriptor :=
  ⟨r.id, r.filename, r.originalName, r.mimeType, r.size, r.width, r.height,
   base ++ "/uploads/" ++ r.filename, r.uploadedAt⟩

/-- The JSON body of the listing response. -/
structure ListResponse where
  total : Nat
  limit : Int
  offset : Int
  items : List ImageDescriptor
deriving DecidableEq, Repr

/-- The GET images route: clamp the pagination parameters, read the rows
ordered newest first with skip and take, count the table, serialize each
row with its public URL, and answer 200; the state is returned untouched
(the route only reads). -/
def listImages (base : String) (limitQ offsetQ : Option String) (s : ServerState) :
    (Nat × ListResponse) × ServerState :=
  let limit := effLimit limitQ
  let offset := effOffset offsetQ
  let page := ((listRecordsSorted s).drop offset.toNat).take limit.toNat
  ((200, ⟨s.records.length, limit, offset, page.map (toDescriptor base)⟩), s)

/-! ## Gallery fetch cycle (client state machine) -/

/-- The item shape the Gallery component stores in its items state. -/
structure ImageItem where
  id : String
  filename : String
  originalName : String
  mimeType : String
  size : Nat
  width : Option Int
  height : Option Int
  url : String
  uploadedAt : String
deriving DecidableEq, Repr

/-- Outcome of one fetch attempt as observed by the load closure: an
AbortError rejection, any other failure (network error, JSON error, or the
thrown non-ok status error) carrying its message, or an ok response whose
parsed items field either is an array of items or is not an array. -/
inductive FetchOutcome where
  | abortErr (msg : String)
  | failure (msg : String)
  | ok (itemsField : Option (List ImageItem))
deriving DecidableEq, Repr

/-- State of one Gallery fetch cycle: the cycle-local cancelled flag, the
three rendered state hooks (items, error, loading), the attempt number of a
scheduled-but-unfired retry timer, the attempt number of an in-flight fetch,
and the log of retry delays scheduled so far. -/
structure CycleState where
  cancelled : Bool
  items : List ImageItem
  error : Option String
  loading : Bool
  pending : Option Nat
  inflight : Option Nat
  schedLog : List Nat
deriving DecidableEq, Repr

/-- The exponential backoff delay of the load closure. -/
def backoffDelay (a : Nat) : Nat := min (1000 * 2 ^ a) 8000

/-- The synchronous prefix of load(attempt): return immediately when the
cycle is cancelled; otherwise set loading on the first attempt, clear the
error, and issue the fetch. -/
def startLoad (a : Nat) (s : CycleState) : CycleState :=
  if s.cancelled then s
  else { s with loading := if a = 0 then true else s.loading,
                error := none,
                inflight := some a }

/-- The continuation of load(attempt) once its fetch settles: on an ok
response, return if cancelled, else store the items field when it is an
array and the empty list otherwise, and stop loading; on a rejection,
return if cancelled; a non-abort failure below the retry ceiling schedules
one retry with the backoff delay and leaves the rendered state alone, and
otherwise the failure message is shown and loading ends. -/
def resumeLoad (a : Nat) (out : FetchOutcome) (s : CycleState) : CycleState :=
  match out with
  | .ok itemsField =>
      if s.cancelled then s
      else { s with items := itemsField.getD [], loading := false }
  | .abortErr msg =>
      if s.cancelled then s
      else { s with error := some msg, loading := false }
  | .failure msg =>
      if s.cancelled then s
      else if a < 5 then
        { s with pending := some (a + 1), schedLog := s.schedLog ++ [backoffDelay a] }
      else { s with error := some msg, loading := false }

/-- Events delivered to a fetch cycle by the event loop: the scheduled
retry timer fires, the in-flight fetch settles, or the effect cleanup runs
(refresh key changed or component unmounted), which sets the cancelled flag
and aborts the controller. -/
inductive GalleryEvent where
  | timerFired
  | fetchDone (out : FetchOutcome)
  | cancelCleanup
deriving DecidableEq, Repr

/-- One step of the cycle: a firing timer invokes load with the recorded
attempt number; a settling fetch resumes the suspended load; cleanup sets
the cancelled flag (the abort rejection it triggers arrives later as a
fetchDone event with an AbortError outcome). -/
def step (s : CycleState) (e : GalleryEvent) : CycleState :=
  match e with
  | .timerFired =>
      match s.pending with
      | none => s
      | some a => startLoad a { s with pending := none }
  | .fetchDone out =>
      match s.inflight with
      | none => s
      | some a => resumeLoad a out { s with inflight := none }
  | .cancelCleanup => { s with cancelled := true }

/-- Run a never-cancelled cycle against a list of per-attempt fetch
outcomes: each outcome settles the current fetch and then any retry timer
it scheduled fires. -/
def runOutcomes (s : CycleState) (outs : List FetchOutcome) : CycleState :=
  match outs with
  | [] => s
  | out :: rest => runOutcomes (step (step s (.fetchDone out)) .timerFired) rest

/-- The component state at mount time: no items, no error, loading true. -/
def initState : CycleState := ⟨false, [], none, true, none, none, []⟩

/-- What the component renders, following its early returns: the loading
message, the error alert, the empty-gallery message, or the image grid. -/
inductive GalleryView where
  | loadingMsg
  | errorAlert (msg : String)
  | emptyMsg
  | grid (items : List ImageItem)
deriving DecidableEq, Repr

/-- The render function of the Gallery component. -/
def renderGallery (s : CycleState) : GalleryView :=
  if s.loading then .loadingMsg
  else
    match s.error with
    | some m => .errorAlert m
    | none => if s.items.isEmpty then .emptyMsg else .grid s.items

/-! ## Gallery theorems -/

/-- After cancellation, one further event leaves the rendered state and the
retry log untouched and keeps the cycle cancelled. -/
lemma step_cancelled (s : CycleState) (e : GalleryEvent) (h : s.cancelled = true) :
    (step s e).items = s.items ∧ (step s e).error = s.error ∧
    (step s e).loading = s.loading ∧ (step s e).schedLog = s.schedLog ∧
    (step s e).cancelled = true := by
  cases e with
  | timerFired =>
      cases hp : s.pending with
      | none => simp [step, hp, h]
      | some a => simp [step, hp, startLoad, h]
  | fetchDone out =>
      cases hi : s.inflight with
      | none => simp [step, hi, h]
      | some a => cases out <;> simp [step, hi, resumeLoad, h]
  | cancelCleanup => simp [step, h]

/-- Claim C3: once a Gallery fetch cycle is cancelled (refresh key change
or teardown), no subsequent event of that cycle -- an in-flight response
arriving, an abort, or a previously scheduled retry timer firing -- ever
updates the rendered items, loading flag, or error, and no further retry is
ever scheduled (the log of scheduled retries stays fixed): a cancelled
cycle never transitions the rendered state machine. -/
theorem gallery_cancelled_frozen :
    ∀ (s : CycleState), s.cancelled = true → ∀ (es : List GalleryEvent),
      ((es.foldl step s).items = s.items ∧ (es.foldl step s).error = s.error ∧
       (es.foldl step s).loading = s.loading ∧
       (es.foldl step s).schedLog = s.schedLog ∧
       (es.foldl step s).cancelled = true) := by
  intro s h es
  induction es generalizing s with
  | nil => exact ⟨rfl, rfl, rfl, rfl, h⟩
  | cons e rest ih =>
      obtain ⟨h1, h2, h3, h4, h5⟩ := step_cancelled s e h
      obtain ⟨g1, g2, g3, g4, g5⟩ := ih (step s e) h5
      exact ⟨g1.trans h1, g2.trans h2, g3.trans h3, g4.trans h4, g5⟩

/-- Claim C3 witness: a concrete cancelled cycle state hit by a timer
firing, an ok response, a failure, and another cleanup keeps its rendered
state, its retry log and its cancelled flag. -/
theorem gallery_cancelled_frozen_witness :
    (([GalleryEvent.timerFired, GalleryEvent.fetchDone (FetchOutcome.ok none),
       GalleryEvent.fetchDone (FetchOutcome.failure "boom"),
       GalleryEvent.cancelCleanup].foldl step
        ⟨true, [], some "old", false, some 3, some 2, [1000]⟩).items =
        (⟨true, [], some "old", false, some 3, some 2, [1000]⟩ : CycleState).items ∧
     ([GalleryEvent.timerFired, GalleryEvent.fetchDone (FetchOutcome.ok none),
       GalleryEvent.fetchDone (FetchOutcome.failure "boom"),
       GalleryEvent.cancelCleanup].foldl step
        ⟨true, [], some "old", false, some 3, some 2, [1000]⟩).error =
        (⟨true, [], some "old", false, some 3, some 2, [1000]⟩ : CycleState).error ∧
     ([GalleryEvent.timerFired, GalleryEvent.fetchDone (FetchOutcome.ok none),
       GalleryEvent.fetchDone (FetchOutcome.failure "boom"),
       GalleryEvent.cancelCleanup].foldl step
        ⟨true, [], some "old", false, some 3, some 2, [1000]⟩).loading =
        (⟨true, [], some "old", false, some 3, some 2, [1000]⟩ : CycleState).loading ∧
     ([GalleryEvent.timerFired, GalleryEvent.fetchDone (FetchOutcome.ok none),
       GalleryEvent.fetchDone (FetchOutcome.failure "boom"),
       GalleryEvent.cancelCleanup].foldl step
        ⟨true, [], some "old", false, some 3, some 2, [1000]⟩).schedLog =
        (⟨true, [], some "old", false, some 3, some 2, [1000]⟩ : CycleState).schedLog ∧
     ([GalleryEvent.timerFired, GalleryEvent.fetchDone (FetchOutcome.ok none),
       GalleryEvent.fetchDone (FetchOutcome.failure "boom"),
       GalleryEvent.cancelCleanup].foldl step
        ⟨true, [], some "old", false, some 3, some 2, [1000]⟩).cancelled = true) :=
  gallery_cancelled_frozen ⟨true, [], some "old", false, some 3, some 2, [1000]⟩ rfl
    [GalleryEvent.timerFired, GalleryEvent.fetchDone (FetchOutcome.ok none),
     GalleryEvent.fetchDone (FetchOutcome.failure "boom"), GalleryEvent.cancelCleanup]

/-- Invariant run: from a live state with an in-flight attempt a, no timer
pending, no error shown, and enough retry budget, a run of transient
failures followed by an ok response ends with the fetched items rendered,
loading over, and no error. -/
lemma run_success_aux (msgs : List String) :
    ∀ (a : Nat) (s : CycleState) (itemsF : Option (List ImageItem)),
      s.cancelled = false → s.inflight = some a → s.pending = none →
      s.error = none → a + msgs.length ≤ 5 →
      ((runOutcomes s (msgs.map .failure ++ [.ok itemsF])).items = itemsF.getD [] ∧
       (runOutcomes s (msgs.map .failure ++ [.ok itemsF])).loading = false ∧
       (runOutcomes s (msgs.map .failure ++ [.ok itemsF])).error = none) := by
  induction msgs with
  | nil =>
      intro a s itemsF hc hi hp he _
      simp [runOutcomes, step, hi, hp, resumeLoad, hc, he]
  | cons m rest ih =>
      intro a s itemsF hc hi hp he hlen
      have ha : a < 5 := by simp only [List.length_cons] at hlen; omega
      simp only [List.map_cons, List.cons_append, runOutcomes]
      refine ih (a + 1) _ itemsF ?_ ?_ ?_ ?_ ?_
      · simp [step, hi, resumeLoad, hc, ha, startLoad, hp]
      · simp [step, hi, resumeLoad, hc, ha, startLoad, hp]
      · simp [step, hi, resumeLoad, hc, ha, startLoad, hp]
      · simp [step, hi, resumeLoad, hc, ha, startLoad, hp]
      · simp only [List.length_cons] at hlen
        omega

/-- Claim C4: in the Gallery fetch cycle, (1) a failed non-cancelled
attempt with attempt count below the ceiling 5 schedules exactly one retry
with delay min(1000 * 2 ^ attempt, 8000) milliseconds while the rendered
state -- items, error, and in particular the loading flag -- is left
untouched; (2) six consecutive transient failures end in the error state
holding the last failure message, with loading over and exactly the five
retry delays 1000, 2000, 4000, 8000, 8000 scheduled; (3) a success at any
attempt (after up to five failures) ends in the success state holding the
fetched items. -/
theorem gallery_backoff_machine :
    (∀ (s : CycleState) (a : Nat) (msg : String),
        s.cancelled = false → s.inflight = some a → a < 5 →
        step s (.fetchDone (.failure msg)) =
          { s with inflight := none, pending := some (a + 1),
                   schedLog := s.schedLog ++ [min (1000 * 2 ^ a) 8000] }) ∧
    (∀ m0 m1 m2 m3 m4 m5 : String,
        runOutcomes (startLoad 0 initState)
          [.failure m0, .failure m1, .failure m2, .failure m3, .failure m4, .failure m5] =
          ⟨false, [], some m5, false, none, none, [1000, 2000, 4000, 8000, 8000]⟩) ∧
    (∀ (msgs : List String) (itemsF : Option (List ImageItem)),
        msgs.length ≤ 5 →
        ((runOutcomes (startLoad 0 initState) (msgs.map .failure ++ [.ok itemsF])).items =
            itemsF.getD [] ∧
         (runOutcomes (startLoad 0 initState) (msgs.map .failure ++ [.ok itemsF])).loading =
            false ∧
         (runOutcomes (startLoad 0 initState) (msgs.map .failure ++ [.ok itemsF])).error =
            none)) := by
  refine ⟨?_, ?_, ?_⟩
  · intro s a msg hc hi ha
    simp [step, hi, resumeLoad, hc, ha, backoffDelay]
  · intro m0 m1 m2 m3 m4 m5
    rfl
  · intro msgs itemsF hlen
    exact run_success_aux msgs 0 (startLoad 0 initState) itemsF rfl rfl rfl rfl
      (by simpa using hlen)

/-- Claim C4 witness: the scheduling equation at attempt 2 of a concrete
live state, the concrete six-failure run, and a success after two failures
returning one concrete item. -/
theorem gallery_backoff_machine_witness :
    (step ⟨false, [], none, true, none, some 2, [1000, 2000]⟩
        (.fetchDone (.failure "boom")) =
      { (⟨false, [], none, true, none, some 2, [1000, 2000]⟩ : CycleState) with
          inflight := none, pending := some (2 + 1),
          schedLog := (⟨false, [], none, true, none, some 2, [1000, 2000]⟩ :
            CycleState).schedLog ++ [min (1000 * 2 ^ 2) 8000] }) ∧
    (runOutcomes (startLoad 0 initState)
        [.failure "a", .failure "b", .failure "c", .failure "d", .failure "e", .failure "f"] =
      ⟨false, [], some "f", false, none, none, [1000, 2000, 4000, 8000, 8000]⟩) ∧
    ((runOutcomes (startLoad 0 initState)
        (["x", "y"].map .failure ++
          [.ok (some [⟨"i1", "f1", "o1", "image/png", 7, some 2, some 3, "u1", "t1"⟩])])).items =
      (some [(⟨"i1", "f1", "o1", "image/png", 7, some 2, some 3, "u1", "t1"⟩ : ImageItem)]).getD []) := by
  refine ⟨?_, ?_, ?_⟩
  · exact gallery_backoff_machine.1 _ 2 "boom" rfl rfl (by decide)
  · exact gallery_backoff_machine.2.1 "a" "b" "c" "d" "e" "f"
  · exact (gallery_backoff_machine.2.2 ["x", "y"]
      (some [⟨"i1", "f1", "o1", "image/png", 7, some 2, some 3, "u1", "t1"⟩]) (by decide)).1

/-- Claim C10: when a live Gallery fetch receives an ok response whose
parsed items field is not an array, the component stores the empty list as
its items (never a non-list value), stops loading, shows no error, and
renders the success view (here the empty-gallery message). -/
theorem gallery_nonarray_items :
    ∀ (s : CycleState) (a : Nat),
      s.cancelled = false → s.inflight = some a → s.error = none →
      ((step s (.fetchDone (.ok none))).items = [] ∧
       (step s (.fetchDone (.ok none))).loading = false ∧
       (step s (.fetchDone (.ok none))).error = none ∧
       renderGallery (step s (.fetchDone (.ok none))) = .emptyMsg) := by
  intro s a hc hi he
  simp [step, hi, resumeLoad, hc, renderGallery, he]

/-- Claim C10 witness: the non-array ok response applied to a concrete
loading state that previously rendered one item. -/
theorem gallery_nonarray_items_witness :
    ((step ⟨false, [⟨"i1", "f1", "o1", "image/png", 7, some 2, some 3, "u1", "t1"⟩],
        none, true, none, some 0, []⟩ (.fetchDone (.ok none))).items = [] ∧
     (step ⟨false, [⟨"i1", "f1", "o1", "image/png", 7, some 2, some 3, "u1", "t1"⟩],
        none, true, none, some 0, []⟩ (.fetchDone (.ok none))).loading = false ∧
     (step ⟨false, [⟨"i1", "f1", "o1", "image/png", 7, some 2, some 3, "u1", "t1"⟩],
        none, true, none, some 0, []⟩ (.fetchDone (.ok none))).error = none ∧
     renderGallery (step ⟨false, [⟨"i1", "f1", "o1", "image/png", 7, some 2, some 3, "u1", "t1"⟩],
        none, true, none, some 0, []⟩ (.fetchDone (.ok none))) = .emptyMsg) :=
  gallery_nonarray_items
    ⟨false, [⟨"i1", "f1", "o1", "image/png", 7, some 2, some 3, "u1", "t1"⟩],
      none, true, none, some 0, []⟩ 0 rfl rfl rfl

/-! ## Listing theorems -/

/-- Claim C6: for every listing request, the response total is the number
of stored records; the route has no side effect on the store; the items are
the stored records ordered by creation timestamp descending (a sorted
permutation of the store), skipping the effective offset and taking at most
the effective limit, each serialized with the public URL built from the
configured base and the storage name; hence the item count is
min(limit, total - offset) with truncated subtraction, and an empty store
yields an empty item list with total zero. -/
theorem listing_page_contract :
    ∀ (base : String) (limQ offQ : Option String) (s : ServerState),
      ((listImages base limQ offQ s).1.2.total = s.records.length ∧
       (listImages base limQ offQ s).2 = s ∧
       (listImages base limQ offQ s).1.2.items =
         (((listRecordsSorted s).drop (effOffset offQ).toNat).take
            (effLimit limQ).toNat).map (toDescriptor base) ∧
       List.Perm (listRecordsSorted s) s.records ∧
       List.Sorted uploadedDesc (listRecordsSorted s) ∧
       (listImages base limQ offQ s).1.2.items.length =
         min (effLimit limQ).toNat (s.records.length - (effOffset offQ).toNat) ∧
       (s.records = [] →
         (listImages base limQ offQ s).1.2.items = [] ∧
         (listImages base limQ offQ s).1.2.total = 0) ∧
       (∀ d ∈ (listImages base limQ offQ s).1.2.items,
         d.url = base ++ "/uploads/" ++ d.filename)) := by
  intro base limQ offQ s
  refine ⟨rfl, rfl, rfl, List.perm_insertionSort uploadedDesc s.records,
    List.sorted_insertionSort uploadedDesc s.records, ?_, ?_, ?_⟩
  · have hlen : (listRecordsSorted s).length = s.records.length :=
      (List.perm_insertionSort uploadedDesc s.records).length_eq
    simp [listImages, List.length_take, List.length_drop, hlen]
  · intro h
    simp [listImages, listRecordsSorted, h]
  · intro d hd
    simp only [listImages, List.mem_map] at hd
    obtain ⟨r, _, rfl⟩ := hd
    rfl

/-- Claim C6 witness: a concrete two-record store listed with default
pagination parameters. -/
theorem listing_page_contract_witness :
    ((listImages "http://localhost:3001" none none
        ⟨["f1", "f2"], [], [⟨1, "f1", "o1", "image/jpeg", 5, some 1, some 2, 10, 0⟩,
           ⟨2, "f2", "o2", "image/png", 6, some 3, some 4, 20, 0⟩], 3, 30⟩).1.2.total =
       (⟨["f1", "f2"], [], [⟨1, "f1", "o1", "image/jpeg", 5, some 1, some 2, 10, 0⟩,
           ⟨2, "f2", "o2", "image/png", 6, some 3, some 4, 20, 0⟩], 3, 30⟩ :
         ServerState).records.length ∧
     (listImages "http://localhost:3001" none none
        ⟨["f1", "f2"], [], [⟨1, "f1", "o1", "image/jpeg", 5, some 1, some 2, 10, 0⟩,
           ⟨2, "f2", "o2", "image/png", 6, some 3, some 4, 20, 0⟩], 3, 30⟩).2 =
       ⟨["f1", "f2"], [], [⟨1, "f1", "o1", "image/jpeg", 5, some 1, some 2, 10, 0⟩,
           ⟨2, "f2", "o2", "image/png", 6, some 3, some 4, 20, 0⟩], 3, 30⟩ ∧
     (listImages "http://localhost:3001" none none
        ⟨["f1", "f2"], [], [⟨1, "f1", "o1", "image/jpeg", 5, some 1, some 2, 10, 0⟩,
           ⟨2, "f2", "o2", "image/png", 6, some 3, some 4, 20, 0⟩], 3, 30⟩).1.2.items =
       (((listRecordsSorted
            ⟨["f1", "f2"], [], [⟨1, "f1", "o1", "image/jpeg", 5, some 1, some 2, 10, 0⟩,
               ⟨2, "f2", "o2", "image/png", 6, some 3, some 4, 20, 0⟩], 3, 30⟩).drop
           (effOffset none).toNat).take (effLimit none).toNat).map
         (toDescriptor "http://localhost:3001") ∧
     List.Perm
       (listRecordsSorted
         ⟨["f1", "f2"], [], [⟨1, "f1", "o1", "image/jpeg", 5, some 1, some 2, 10, 0⟩,
            ⟨2, "f2", "o2", "image/png", 6, some 3, some 4, 20, 0⟩], 3, 30⟩)
       (⟨["f1", "f2"], [], [⟨1, "f1", "o1", "image/jpeg", 5, some 1, some 2, 10, 0⟩,
           ⟨2, "f2", "o2", "image/png", 6, some 3, some 4, 20, 0⟩], 3, 30⟩ :
         ServerState).records ∧
     List.Sorted uploadedDesc
       (listRecordsSorted
         ⟨["f1", "f2"], [], [⟨1, "f1", "o1", "image/jpeg", 5, some 1, some 2, 10, 0⟩,
            ⟨2, "f2", "o2", "image/png", 6, some 3, some 4, 20, 0⟩], 3, 30⟩) ∧
     (listImages "http://localhost:3001" none none
        ⟨["f1", "f2"], [], [⟨1, "f1", "o1", "image/jpeg", 5, some 1, some 2, 10, 0⟩,
           ⟨2, "f2", "o2", "image/png", 6, some 3, some 4, 20, 0⟩], 3, 30⟩).1.2.items.length =
       min (effLimit none).toNat
         ((⟨["f1", "f2"], [], [⟨1, "f1", "o1", "image/jpeg", 5, some 1, some 2, 10, 0⟩,
             ⟨2, "f2", "o2", "image/png", 6, some 3, some 4, 20, 0⟩], 3, 30⟩ :
           ServerState).records.length - (effOffset none).toNat) ∧
     ((⟨["f1", "f2"], [], [⟨1, "f1", "o1", "image/jpeg", 5, some 1, some 2, 10, 0⟩,
          ⟨2, "f2", "o2", "image/png", 6, some 3, some 4, 20, 0⟩], 3, 30⟩ :
        ServerState).records = [] →
       (listImages "http://localhost:3001" none none
          ⟨["f1", "f2"], [], [⟨1, "f1", "o1", "image/jpeg", 5, some 1, some 2, 10, 0⟩,
             ⟨2, "f2", "o2", "image/png", 6, some 3, some 4, 20, 0⟩], 3, 30⟩).1.2.items = [] ∧
       (listImages "http://localhost:3001" none none
          ⟨["f1", "f2"], [], [⟨1, "f1", "o1", "image/jpeg", 5, some 1, some 2, 10, 0⟩,
             ⟨2, "f2", "o2", "image/png", 6, some 3, some 4, 20, 0⟩], 3, 30⟩).1.2.total = 0) ∧
     (∀ d ∈ (listImages "http://localhost:3001" none none
          ⟨["f1", "f2"], [], [⟨1, "f1", "o1", "image/jpeg", 5, some 1, some 2, 10, 0⟩,
             ⟨2, "f2", "o2", "image/png", 6, some 3, some 4, 20, 0⟩], 3, 30⟩).1.2.items,
       d.url = "http://localhost:3001" ++ "/uploads/" ++ d.filename)) :=
  listing_page_contract "http://localhost:3001" none none
    ⟨["f1", "f2"], [], [⟨1, "f1", "o1", "image/jpeg", 5, some 1, some 2, 10, 0⟩,
       ⟨2, "f2", "o2", "image/png", 6, some 3, some 4, 20, 0⟩], 3, 30⟩

/-- Claim C7 counterexample: a requested limit of zero is turned into the
default twenty by the or-default, not into the clamp of zero to the bounds
one to one hundred (which would be one), so the effective limit is not the
requested limit clamped to the bounds. -/
theorem pagination_clamp_cex :
    effLimit (some "0") = 20 ∧ min (max (0 : Int) 1) 100 = 1 ∧
      effLimit (some "0") ≠ min (max (0 : Int) 1) 100 := by
  decide

/-- Claim C7 as amended: the effective limit is the parsed limit clamped to
the interval from one to one hundred when the limit parameter parses to a
nonzero integer, and is the default twenty when the parameter is absent,
non-numeric, or parses to zero; the effective offset is the parsed offset
clamped to be nonnegative, with absent or non-numeric offsets becoming
zero; the effective values always lie in their bounds and are echoed back
in the listing response alongside total and items. -/
theorem pagination_clamp_amended :
    (∀ (q : Option String) (n : Int),
        parseIntBase10 (q.getD "20") = some n → n ≠ 0 →
        effLimit q = min (max n 1) 100) ∧
    (effLimit none = 20) ∧
    (∀ str : String, parseIntBase10 str = none → effLimit (some str) = 20) ∧
    (∀ str : String, parseIntBase10 str = some 0 → effLimit (some str) = 20) ∧
    (∀ (q : Option String) (n : Int),
        parseIntBase10 (q.getD "0") = some n → effOffset q = max n 0) ∧
    (effOffset none = 0) ∧
    (∀ str : String, parseIntBase10 str = none → effOffset (some str) = 0) ∧
    (∀ q : Option String, 1 ≤ effLimit q ∧ effLimit q ≤ 100 ∧ 0 ≤ effOffset q) ∧
    (∀ (base : String) (limQ offQ : Option String) (s : ServerState),
        (listImages base limQ offQ s).1.2.limit = effLimit limQ ∧
        (listImages base limQ offQ s).1.2.offset = effOffset offQ) := by
  refine ⟨?_, by decide, ?_, ?_, ?_, by decide, ?_, ?_, ?_⟩
  · intro q n hq hn
    simp [effLimit, hq, hn]
  · intro str hstr
    simp [effLimit, hstr]
  · intro str hstr
    simp [effLimit, hstr]
  · intro q n hq
    by_cases hn : n = 0 <;> simp [effOffset, hq, hn]
  · intro str hstr
    simp [effOffset, hstr]
  · intro q
    refine ⟨?_, ?_, ?_⟩
    · unfold effLimit
      cases hq : parseIntBase10 (q.getD "20") with
      | none => simp
      | some v => by_cases hv : v = 0 <;> simp [hv]
    · unfold effLimit
      cases hq : parseIntBase10 (q.getD "20") with
      | none => simp
      | some v => by_cases hv : v = 0 <;> simp [hv]
    · unfold effOffset
      cases hq : parseIntBase10 (q.getD "0") with
      | none => simp
      | some v => by_cases hv : v = 0 <;> simp [hv]
  · intro base limQ offQ s
    exact ⟨rfl, rfl⟩

/-- Claim C7 witness: a limit parameter of two hundred is clamped down to
one hundred, a concrete non-numeric limit defaults to twenty, and the
effective values are echoed for a concrete store. -/
theorem pagination_clamp_amended_witness :
    (effLimit (some "200") = min (max (200 : Int) 1) 100 ∧
     effLimit (some "abc") = 20 ∧
     effOffset (some "-7") = max (-7 : Int) 0 ∧
     (listImages "b" (some "200") (some "-7") ⟨[], [], [], 0, 0⟩).1.2.limit =
       effLimit (some "200") ∧
     (listImages "b" (some "200") (some "-7") ⟨[], [], [], 0, 0⟩).1.2.offset =
       effOffset (some "-7")) := by
  refine ⟨pagination_clamp_amended.1 (some "200") 200 (by decide) (by decide),
    pagination_clamp_amended.2.2.1 "abc" (by decide),
    pagination_clamp_amended.2.2.2.2.1 (some "-7") (-7) (by decide),
    (pagination_clamp_amended.2.2.2.2.2.2.2.2 "b" (some "200") (some "-7")
      ⟨[], [], [], 0, 0⟩).1,
    (pagination_clamp_amended.2.2.2.2.2.2.2.2 "b" (some "200") (some "-7")
      ⟨[], [], [], 0, 0⟩).2⟩

/-- Claim C9: an absent, non-numeric, or zero limit parameter yields the
default twenty (not the lower bound one); an absent, non-numeric, or
negative offset becomes zero; and the listing endpoint answers 200 for
every combination of pagination parameters -- malformed parameters never
make it reject the request. -/
theorem pagination_defaults :
    (effLimit none = 20) ∧
    (∀ str : String, parseIntBase10 str = none → effLimit (some str) = 20) ∧
    (∀ str : String, parseIntBase10 str = some 0 → effLimit (some str) = 20) ∧
    (effOffset none = 0) ∧
    (∀ str : String, parseIntBase10 str = none → effOffset (some str) = 0) ∧
    (∀ (str : String) (n : Int), parseIntBase10 str = some n → n < 0 →
        effOffset (some str) = 0) ∧
    (∀ (base : String) (limQ offQ : Option String) (s : ServerState),
        (listImages base limQ offQ s).1.1 = 200) := by
  refine ⟨by decide, ?_, ?_, by decide, ?_, ?_, ?_⟩
  · intro str hstr
    simp [effLimit, hstr]
  · intro str hstr
    simp [effLimit, hstr]
  · intro str hstr
    simp [effOffset, hstr]
  · intro str n hstr hn
    have hne : n ≠ 0 := by omega
    simp [effOffset, hstr, hne]
    omega
  · intro base limQ offQ s
    rfl

/-- Claim C9 witness: concrete malformed parameters -- a non-numeric limit,
a zero limit, a non-numeric offset, a negative offset -- hit the defaults
and the endpoint still answers 200. -/
theorem pagination_defaults_witness :
    (effLimit none = 20 ∧
     effLimit (some "abc") = 20 ∧
     effLimit (some "0") = 20 ∧
     effOffset (some "xyz") = 0 ∧
     effOffset (some "-3") = 0 ∧
     (listImages "b" (some "abc") (some "-3") ⟨[], [], [], 0, 0⟩).1.1 = 200) :=
  ⟨pagination_defaults.1,
   pagination_defaults.2.1 "abc" (by decide),
   pagination_defaults.2.2.1 "0" (by decide),
   pagination_defaults.2.2.2.2.1 "xyz" (by decide),
   pagination_defaults.2.2.2.2.2.1 "-3" (-3) (by decide) (by decide),
   pagination_defaults.2.2.2.2.2.2 "b" (some "abc") (some "-3") ⟨[], [], [], 0, 0⟩⟩

/-! ## Upload theorems -/

/-- The demo-user upsert never touches the uploads directory. -/
lemma upsertDemoUser_files (s : ServerState) : (upsertDemoUser s).2.files = s.files := by
  unfold upsertDemoUser
  split <;> rfl

/-- The demo-user upsert never touches the images table. -/
lemma upsertDemoUser_records (s : ServerState) : (upsertDemoUser s).2.records = s.records := by
  unfold upsertDemoUser
  split <;> rfl

/-- Claim C1: for an upload that passes image validation, when the
metadata-store create call fails the route deletes the just-written byte
stream and surfaces the failure as a 500 persistence error, so that
afterwards neither the byte stream nor a metadata record for it exists:
no record without bytes, no orphan bytes. -/
theorem upload_dbfail_cleanup :
    ∀ (env : UploadEnv) (s : ServerState) (orig mime : String) (size : Nat)
      (w h : Option Int),
      fileFilterAllows mime = true →
      size ≤ MAX_FILE_SIZE →
      env.decode = .decoded w h →
      jsTruthyNum w = true →
      jsTruthyNum h = true →
      env.dbCreateFails = true →
      storageFilename env.now env.rand orig ∉ s.files →
      (∀ r ∈ s.records, r.filename ≠ storageFilename env.now env.rand orig) →
      ((uploadRoute env (.withFile orig mime size) s).1 =
          ⟨500, .errMsg "Something went wrong!"⟩ ∧
       storageFilename env.now env.rand orig ∉
          (uploadRoute env (.withFile orig mime size) s).2.files ∧
       (∀ r ∈ (uploadRoute env (.withFile orig mime size) s).2.records,
          r.filename ≠ storageFilename env.now env.rand orig)) := by
  intro env s orig mime size w h hmime hsize hdec hw hh hdb hfresh hrec
  have hns : ¬ MAX_FILE_SIZE < size := Nat.not_lt.mpr hsize
  have hresult :
      uploadRoute env (.withFile orig mime size) s =
        (⟨500, .errMsg "Something went wrong!"⟩,
         removeFile (storageFilename env.now env.rand orig)
           (upsertDemoUser
             { s with files := s.files ++ [storageFilename env.now env.rand orig] }).2) := by
    unfold uploadRoute multerStage
    simp [hmime, hns, hdec, hw, hh, hdb, errorMiddleware]
  rw [hresult]
  refine ⟨rfl, ?_, ?_⟩
  · simp only [removeFile, upsertDemoUser_files]
    rw [List.erase_append_right _ hfresh, List.erase_cons_head]
    simp [hfresh]
  · simp only [removeFile, upsertDemoUser_records]
    exact hrec

/-- Claim C1 witness: a valid 800 by 1200 JPEG upload into an empty store
with an injected metadata-create failure yields the 500 error and leaves
neither the byte stream nor a record. -/
theorem upload_dbfail_cleanup_witness :
    ((uploadRoute ⟨0, 0, "http://localhost:3001", .decoded (some 800) (some 1200), true⟩
        (.withFile "page01.jpg" "image/jpeg" 2097152) ⟨[], [], [], 0, 0⟩).1 =
        ⟨500, .errMsg "Something went wrong!"⟩ ∧
     storageFilename 0 0 "page01.jpg" ∉
        (uploadRoute ⟨0, 0, "http://localhost:3001", .decoded (some 800) (some 1200), true⟩
          (.withFile "page01.jpg" "image/jpeg" 2097152) ⟨[], [], [], 0, 0⟩).2.files ∧
     (∀ r ∈ (uploadRoute ⟨0, 0, "http://localhost:3001",
            .decoded (some 800) (some 1200), true⟩
          (.withFile "page01.jpg" "image/jpeg" 2097152) ⟨[], [], [], 0, 0⟩).2.records,
        r.filename ≠ storageFilename 0 0 "page01.jpg")) :=
  upload_dbfail_cleanup
    ⟨0, 0, "http://localhost:3001", .decoded (some 800) (some 1200), true⟩
    ⟨[], [], [], 0, 0⟩ "page01.jpg" "image/jpeg" 2097152 (some 800) (some 1200)
    (by decide) (by decide) rfl (by decide) (by decide) rfl
    (List.not_mem_nil _) (by simp)

/-- Claim C2 counterexample: an upload declaring the disallowed mime type
image slash gif is answered with status 500 (the fileFilter error is a
plain Error, which falls past the MulterError branch into the generic
handler), not with the 400 the claim states. -/
theorem mime_reject_status_cex :
    (uploadRoute ⟨1, 2, "http://localhost:3001", .decodeFailed, false⟩
        (.withFile "a.gif" "image/gif" 5) ⟨[], [], [], 0, 0⟩).1.status = 500 ∧
    (uploadRoute ⟨1, 2, "http://localhost:3001", .decodeFailed, false⟩
        (.withFile "a.gif" "image/gif" 5) ⟨[], [], [], 0, 0⟩).1.status ≠ 400 := by
  decide

/-- Claim C2 as amended: an upload whose declared mime type is not in the
allow-list is rejected before any bytes are written and before any
metadata record is created -- the server state is completely unchanged --
but the failure reaches the client as a 500 with the generic error body
(the fileFilter error is not a MulterError, so the 400 multer branch does
not apply), not as a 400. -/
theorem mime_reject_amended :
    ∀ (env : UploadEnv) (s : ServerState) (orig mime : String) (size : Nat),
      fileFilterAllows mime = false →
      ((uploadRoute env (.withFile orig mime size) s).1 =
          ⟨500, .errMsg "Something went wrong!"⟩ ∧
       (uploadRoute env (.withFile orig mime size) s).2 = s) := by
  intro env s orig mime size hm
  constructor <;> simp [uploadRoute, multerStage, hm, errorMiddleware]

/-- Claim C2 witness: the concrete disallowed upload leaves a concrete
nonempty server state untouched and yields the 500 body. -/
theorem mime_reject_amended_witness :
    ((uploadRoute ⟨1, 2, "http://localhost:3001", .decodeFailed, false⟩
        (.withFile "a.gif" "image/gif" 5)
        ⟨["keep.png"], [], [⟨9, "keep.png", "k", "image/png", 1, some 1, some 1, 0, 0⟩], 10, 0⟩).1 =
        ⟨500, .errMsg "Something went wrong!"⟩ ∧
     (uploadRoute ⟨1, 2, "http://localhost:3001", .decodeFailed, false⟩
        (.withFile "a.gif" "image/gif" 5)
        ⟨["keep.png"], [], [⟨9, "keep.png", "k", "image/png", 1, some 1, some 1, 0, 0⟩], 10, 0⟩).2 =
        ⟨["keep.png"], [], [⟨9, "keep.png", "k", "image/png", 1, some 1, some 1, 0, 0⟩], 10, 0⟩) :=
  mime_reject_amended ⟨1, 2, "http://localhost:3001", .decodeFailed, false⟩
    ⟨["keep.png"], [], [⟨9, "keep.png", "k", "image/png", 1, some 1, some 1, 0, 0⟩], 10, 0⟩
    "a.gif" "image/gif" 5 (by decide)

/-- Claim C5 counterexample: a decode yielding the negative width minus
three passes the truthiness check, so the upload succeeds with status 201,
the byte stream is kept, and a metadata record with the non-positive width
minus three is created -- contradicting both the 400 rejection and the
final invariant the claim states for non-positive dimensions. -/
theorem invalid_image_negative_cex :
    ((uploadRoute ⟨3, 4, "http://localhost:3001", .decoded (some (-3)) (some 7), false⟩
        (.withFile "p.png" "image/png" 10) ⟨[], [], [], 0, 0⟩).1.status = 201) ∧
    (∃ r ∈ (uploadRoute ⟨3, 4, "http://localhost:3001", .decoded (some (-3)) (some 7), false⟩
        (.withFile "p.png" "image/png" 10) ⟨[], [], [], 0, 0⟩).2.records,
      r.width = some (-3) ∧ (-3 : Int) ≤ 0) ∧
    ((uploadRoute ⟨3, 4, "http://localhost:3001", .decoded (some (-3)) (some 7), false⟩
        (.withFile "p.png" "image/png" 10) ⟨[], [], [], 0, 0⟩).2.files ≠ []) := by
  decide

/-- Claim C5 as amended: when the stored bytes cannot be decoded, or the
decoded width or height is missing or zero (the JavaScript-falsy cases the
code actually tests), the route deletes the just-written byte stream and
answers 400 with no metadata write; and every record added by a successful
(201) upload has a present, nonzero width and height -- a negative decoded
dimension, however, is accepted and stored as-is. -/
theorem invalid_image_cleanup_amended :
    (∀ (env : UploadEnv) (s : ServerState) (orig mime : String) (size : Nat),
        fileFilterAllows mime = true → size ≤ MAX_FILE_SIZE →
        env.decode = .decodeFailed →
        storageFilename env.now env.rand orig ∉ s.files →
        ((uploadRoute env (.withFile orig mime size) s).1 =
            ⟨400, .errMsg "Could not process image"⟩ ∧
         storageFilename env.now env.rand orig ∉
            (uploadRoute env (.withFile orig mime size) s).2.files ∧
         (uploadRoute env (.withFile orig mime size) s).2.records = s.records)) ∧
    (∀ (env : UploadEnv) (s : ServerState) (orig mime : String) (size : Nat)
        (w h : Option Int),
        fileFilterAllows mime = true → size ≤ MAX_FILE_SIZE →
        env.decode = .decoded w h →
        (jsTruthyNum w = false ∨ jsTruthyNum h = false) →
        storageFilename env.now env.rand orig ∉ s.files →
        ((uploadRoute env (.withFile orig mime size) s).1 =
            ⟨400, .errMsg "Invalid image file"⟩ ∧
         storageFilename env.now env.rand orig ∉
            (uploadRoute env (.withFile orig mime size) s).2.files ∧
         (uploadRoute env (.withFile orig mime size) s).2.records = s.records)) ∧
    (∀ (env : UploadEnv) (req : UploadRequest) (s : ServerState),
        (uploadRoute env req s).1.status = 201 →
        ∀ r ∈ (uploadRoute env req s).2.records,
          r ∈ s.records ∨ (jsTruthyNum r.width = true ∧ jsTruthyNum r.height = true)) := by
  refine ⟨?_, ?_, ?_⟩
  · intro env s orig mime size hmime hsize hdec hfresh
    have hns : ¬ MAX_FILE_SIZE < size := Nat.not_lt.mpr hsize
    have hresult :
        uploadRoute env (.withFile orig mime size) s =
          (⟨400, .errMsg "Could not process image"⟩,
           removeFile (storageFilename env.now env.rand orig)
             { s with files := s.files ++ [storageFilename env.now env.rand orig] }) := by
      unfold uploadRoute multerStage
      simp [hmime, hns, hdec]
    rw [hresult]
    refine ⟨rfl, ?_, rfl⟩
    simp only [removeFile]
    rw [List.erase_append_right _ hfresh, List.erase_cons_head]
    simp [hfresh]
  · intro env s orig mime size w h hmime hsize hdec hfal hfresh
    have hns : ¬ MAX_FILE_SIZE < size := Nat.not_lt.mpr hsize
    have hcond : (!(jsTruthyNum w) || !(jsTruthyNum h)) = true := by
      rcases hfal with hf | hf <;> simp [hf]
    have hresult :
        uploadRoute env (.withFile orig mime size) s =
          (⟨400, .errMsg "Invalid image file"⟩,
           removeFile (storageFilename env.now env.rand orig)
             { s with files := s.files ++ [storageFilename env.now env.rand orig] }) := by
      unfold uploadRoute multerStage
      simp [hmime, hns, hdec, hcond]
    rw [hresult]
    refine ⟨rfl, ?_, rfl⟩
    simp only [removeFile]
    rw [List.erase_append_right _ hfresh, List.erase_cons_head]
    simp [hfresh]
  · intro env req s h201 r hr
    cases req with
    | noFile => simp [uploadRoute, multerStage] at h201
    | withFile orig mime size =>
        cases hm : fileFilterAllows mime with
        | false => simp [uploadRoute, multerStage, hm, errorMiddleware] at h201
        | true =>
            rcases Nat.lt_or_ge MAX_FILE_SIZE size with hs | hs
            · simp [uploadRoute, multerStage, hm, hs, errorMiddleware] at h201
            · have hns : ¬ MAX_FILE_SIZE < size := Nat.not_lt.mpr hs
              cases hd : env.decode with
              | decodeFailed => simp [uploadRoute, multerStage, hm, hns, hd] at h201
              | decoded w hgt =>
                  cases hw : jsTruthyNum w with
                  | false => simp [uploadRoute, multerStage, hm, hns, hd, hw] at h201
                  | true =>
                      cases hh : jsTruthyNum hgt with
                      | false =>
                          simp [uploadRoute, multerStage, hm, hns, hd, hw, hh] at h201
                      | true =>
                          cases hdb : env.dbCreateFails with
                          | true =>
                              simp [uploadRoute, multerStage, hm, hns, hd, hw, hh, hdb,
                                errorMiddleware] at h201
                          | false =>
                              simp only [uploadRoute, multerStage, hm, hns, hd, hw, hh,
                                hdb] at hr
                              simp [upsertDemoUser_records, List.mem_append] at hr
                              rcases hr with hr | hr
                              · exact Or.inl hr
                              · right
                                rw [hr]
                                exact ⟨hw, hh⟩

/-- Claim C5 witness: a concrete undecodable upload answered 400 with
cleanup, a concrete zero-width upload answered 400 with cleanup, and the
concrete successful upload of claim C8's running example adding only a
record with nonzero dimensions. -/
theorem invalid_image_cleanup_amended_witness :
    ((uploadRoute ⟨5, 6, "http://localhost:3001", .decodeFailed, false⟩
        (.withFile "bad.png" "image/png" 10) ⟨[], [], [], 0, 0⟩).1 =
        ⟨400, .errMsg "Could not process image"⟩ ∧
     storageFilename 5 6 "bad.png" ∉
        (uploadRoute ⟨5, 6, "http://localhost:3001", .decodeFailed, false⟩
          (.withFile "bad.png" "image/png" 10) ⟨[], [], [], 0, 0⟩).2.files ∧
     (uploadRoute ⟨5, 6, "http://localhost:3001", .decodeFailed, false⟩
        (.withFile "bad.png" "image/png" 10) ⟨[], [], [], 0, 0⟩).2.records =
        (⟨[], [], [], 0, 0⟩ : ServerState).records) ∧
    ((uploadRoute ⟨7, 8, "http://localhost:3001", .decoded (some 0) (some 9), false⟩
        (.withFile "zero.png" "image/png" 10) ⟨[], [], [], 0, 0⟩).1 =
        ⟨400, .errMsg "Invalid image file"⟩ ∧
     storageFilename 7 8 "zero.png" ∉
        (uploadRoute ⟨7, 8, "http://localhost:3001", .decoded (some 0) (some 9), false⟩
          (.withFile "zero.png" "image/png" 10) ⟨[], [], [], 0, 0⟩).2.files ∧
     (uploadRoute ⟨7, 8, "http://localhost:3001", .decoded (some 0) (some 9), false⟩
        (.withFile "zero.png" "image/png" 10) ⟨[], [], [], 0, 0⟩).2.records =
        (⟨[], [], [], 0, 0⟩ : ServerState).records) ∧
    (∀ r ∈ (uploadRoute ⟨0, 0, "http://localhost:3001",
          .decoded (some 800) (some 1200), false⟩
        (.withFile "page01.jpg" "image/jpeg" 2097152) ⟨[], [], [], 0, 0⟩).2.records,
      r ∈ (⟨[], [], [], 0, 0⟩ : ServerState).records ∨
        (jsTruthyNum r.width = true ∧ jsTruthyNum r.height = true)) :=
  ⟨invalid_image_cleanup_amended.1 ⟨5, 6, "http://localhost:3001", .decodeFailed, false⟩
     ⟨[], [], [], 0, 0⟩ "bad.png" "image/png" 10 (by decide) (by decide) rfl
     (List.not_mem_nil _),
   invalid_image_cleanup_amended.2.1
     ⟨7, 8, "http://localhost:3001", .decoded (some 0) (some 9), false⟩
     ⟨[], [], [], 0, 0⟩ "zero.png" "image/png" 10 (some 0) (some 9)
     (by decide) (by decide) rfl (Or.inl (by decide)) (List.not_mem_nil _),
   invalid_image_cleanup_amended.2.2
     ⟨0, 0, "http://localhost:3001", .decoded (some 800) (some 1200), false⟩
     (.withFile "page01.jpg" "image/jpeg" 2097152) ⟨[], [], [], 0, 0⟩ (by decide)⟩

/-! ## Filename allocator theorems -/

/-- The extension computed by the extname model is either empty or a dot
followed by characters that are neither dots nor slashes. -/
lemma extname_shape (s : String) :
    (extname s).toList = [] ∨
    ∃ t, (extname s).toList = '.' :: t ∧ ∀ c ∈ t, c ≠ '.' ∧ c ≠ '/' := by
  unfold extname
  dsimp only
  split
  · exact Or.inl rfl
  split
  · exact Or.inl rfl
  split
  · exact Or.inl rfl
  · right
    refine ⟨_, rfl, ?_⟩
    intro c hc
    rw [List.mem_reverse] at hc
    have h1 := List.mem_takeWhile_imp hc
    have hc2 := (List.takeWhile_prefix (fun c => c != '.')).sublist.mem hc
    have h2 := List.mem_takeWhile_imp hc2
    constructor
    · simpa using h1
    · simpa using h2

/-- Digit characters are digits. -/
lemma digitChar_isDigit (d : Nat) (hd : d < 10) : (Nat.digitChar d).isDigit = true := by
  interval_cases d <;> decide

/-- Every character produced by the fuelled decimal renderer is a digit. -/
lemma natToDecimalAux_chars (fuel : Nat) :
    ∀ (n : Nat), ∀ c ∈ natToDecimalAux fuel n, c.isDigit = true := by
  induction fuel with
  | zero => intro n c hc; simp [natToDecimalAux] at hc
  | succ fuel ih =>
      intro n c hc
      cases n with
      | zero => simp [natToDecimalAux] at hc
      | succ m =>
          have he : natToDecimalAux (fuel + 1) (m + 1) =
              natToDecimalAux fuel ((m + 1) / 10) ++ [Nat.digitChar ((m + 1) % 10)] := rfl
          rw [he] at hc
          rcases List.mem_append.mp hc with hc | hc
          · exact ih _ c hc
          · have hceq : c = Nat.digitChar ((m + 1) % 10) := by simpa using hc
            rw [hceq]
            exact digitChar_isDigit _ (Nat.mod_lt _ (by norm_num))

/-- Every character of the decimal string of a natural number is a digit. -/
lemma natToDecimalString_chars (n : Nat) :
    ∀ c ∈ (natToDecimalString n).toList, c.isDigit = true := by
  intro c hc
  unfold natToDecimalString at hc
  by_cases h : n = 0
  · rw [if_pos h] at hc
    have hceq : c = '0' := by
      rw [show ("0" : String).toList = ['0'] from rfl] at hc
      simpa using hc
    rw [hceq]
    decide
  · rw [if_neg h] at hc
    exact natToDecimalAux_chars n n c hc

/-- Only the dot lowercases to a dot. -/
lemma jsToLowerChar_eq_dot {c : Char} (h : jsToLowerChar c = '.') : c = '.' := by
  unfold jsToLowerChar at h
  split at h <;> first | exact h | exact absurd h (by decide)

/-- Only the slash lowercases to a slash. -/
lemma jsToLowerChar_eq_slash {c : Char} (h : jsToLowerChar c = '/') : c = '/' := by
  unfold jsToLowerChar at h
  split at h <;> first | exact h | exact absurd h (by decide)

/-- String concatenation concatenates the character lists. -/
lemma string_toList_append (a b : String) : (a ++ b).toList = a.toList ++ b.toList := by
  cases a; cases b; rfl

/-- The character list of a storage name: the digits of the timestamp, a
hyphen, the digits of the random component, and the lowercased extension. -/
lemma storageFilename_toList (now rand : Nat) (orig : String) :
    (storageFilename now rand orig).toList =
      (natToDecimalString now).toList ++ '-' ::
        ((natToDecimalString rand).toList ++ (extname orig).toList.map jsToLowerChar) := by
  unfold storageFilename jsToLower
  rw [string_toList_append, string_toList_append, string_toList_append]
  simp [List.append_assoc, show ("-" : String).toList = ['-'] from rfl,
    show ∀ l : List Char, (String.mk l).toList = l from fun _ => rfl]

/-- A decimal string contains no dot. -/
lemma count_dot_natToDecimal (n : Nat) : (natToDecimalString n).toList.count '.' = 0 := by
  rw [List.count_eq_zero]
  intro hmem
  exact absurd (natToDecimalString_chars n '.' hmem) (by decide)

/-- The lowercased extension contains at most one dot. -/
lemma count_dot_extLower (orig : String) :
    ((extname orig).toList.map jsToLowerChar).count '.' ≤ 1 := by
  rcases extname_shape orig with h | ⟨t, ht, hprop⟩
  · rw [h]
    simp
  · rw [ht]
    simp only [List.map_cons, show jsToLowerChar '.' = '.' from rfl]
    rw [List.count_cons_self]
    have hzero : (t.map jsToLowerChar).count '.' = 0 := by
      rw [List.count_eq_zero]
      intro hmem
      rw [List.mem_map] at hmem
      obtain ⟨c, hcmem, hceq⟩ := hmem
      exact (hprop c hcmem).1 (jsToLowerChar_eq_dot hceq)
    omega

/-- A storage name contains no slash. -/
lemma storageFilename_no_slash (now rand : Nat) (orig : String) :
    '/' ∉ (storageFilename now rand orig).toList := by
  rw [storageFilename_toList]
  intro hmem
  rcases List.mem_append.mp hmem with hmem | hmem
  · exact absurd (natToDecimalString_chars now '/' hmem) (by decide)
  · rcases List.mem_cons.mp hmem with hmem | hmem
    · exact absurd hmem (by decide)
    · rcases List.mem_append.mp hmem with hmem | hmem
      · exact absurd (natToDecimalString_chars rand '/' hmem) (by decide)
      · rw [List.mem_map] at hmem
        obtain ⟨c, hcmem, hceq⟩ := hmem
        rcases extname_shape orig with h | ⟨t, ht, hprop⟩
        · rw [h] at hcmem
          exact absurd hcmem (List.not_mem_nil c)
        · rw [ht] at hcmem
          rcases List.mem_cons.mp hcmem with hc | hc
          · rw [hc] at hceq
            exact absurd hceq (by decide)
          · exact (hprop c hc).2 (jsToLowerChar_eq_slash hceq)

/-- A storage name never contains two adjacent dots: it holds at most one
dot in total (the one leading its extension). -/
lemma storageFilename_no_dotdot (now rand : Nat) (orig : String) :
    ¬ (['.', '.'] <:+: (storageFilename now rand orig).toList) := by
  intro hinf
  have hcount : (storageFilename now rand orig).toList.count '.' ≤ 1 := by
    rw [storageFilename_toList]
    have hext := count_dot_extLower orig
    simp only [List.count_append, List.count_cons, count_dot_natToDecimal]
    simp at hext ⊢
    omega
  have hle := hinf.sublist.count_le '.'
  rw [show (['.', '.'] : List Char).count '.' = 2 from by decide] at hle
  omega

/-- Claim C8: every storage name produced by the filename callback has the
form timestamp, hyphen, random integer, extension, where the extension is
the lowercased extension of the original name (kept as a suffix of the
storage name); the name contains no slash and no dot-dot run, so it is safe
as a single path segment; and it depends on the original filename only
through that extension. -/
theorem storage_filename_props :
    (∀ (now rand : Nat) (orig : String),
        storageFilename now rand orig =
          natToDecimalString now ++ "-" ++ natToDecimalString rand ++
            jsToLower (extname orig)) ∧
    (∀ (now rand : Nat) (orig : String),
        (jsToLower (extname orig)).toList <:+ (storageFilename now rand orig).toList) ∧
    (∀ (now rand : Nat) (orig : String), '/' ∉ (storageFilename now rand orig).toList) ∧
    (∀ (now rand : Nat) (orig : String),
        ¬ (['.', '.'] <:+: (storageFilename now rand orig).toList)) ∧
    (∀ (now rand : Nat) (a b : String), extname a = extname b →
        storageFilename now rand a = storageFilename now rand b) := by
  refine ⟨fun _ _ _ => rfl, ?_, storageFilename_no_slash, storageFilename_no_dotdot, ?_⟩
  · intro now rand orig
    refine ⟨(natToDecimalString now).toList ++ '-' :: (natToDecimalString rand).toList, ?_⟩
    rw [storageFilename_toList]
    rw [show (jsToLower (extname orig)).toList = (extname orig).toList.map jsToLowerChar
      from rfl]
    simp [List.append_assoc]
  · intro now rand a b hab
    unfold storageFilename
    rw [hab]

/-- Claim C8 witness: a concrete uppercase extension is lowercased and kept
as a suffix, concrete traversal attempts yield no slash and no dot-dot in
the storage name, and two originals sharing an extension share the storage
name. -/
theorem storage_filename_props_witness :
    (storageFilename 5 6 "Page.JPG" =
      natToDecimalString 5 ++ "-" ++ natToDecimalString 6 ++ jsToLower (extname "Page.JPG")) ∧
    ((jsToLower (extname "Page.JPG")).toList <:+ (storageFilename 5 6 "Page.JPG").toList) ∧
    ('/' ∉ (storageFilename 5 6 "../evil.png").toList) ∧
    (¬ (['.', '.'] <:+: (storageFilename 5 6 "../../etc/passwd").toList)) ∧
    (storageFilename 5 6 "x.jpg" = storageFilename 5 6 "y.jpg") :=
  ⟨storage_filename_props.1 5 6 "Page.JPG",
   storage_filename_props.2.1 5 6 "Page.JPG",
   storage_filename_props.2.2.1 5 6 "../evil.png",
   storage_filename_props.2.2.2.1 5 6 "../../etc/passwd",
   storage_filename_props.2.2.2.2 5 6 "x.jpg" "y.jpg" (by decide)⟩
